import Mathlib

/-!
Shallow embedding of `skootrs-lib/src/service/repo.rs` (Skootrs repository
service): the `LocalRepoService` facade, the `GithubRepoHandler` with its
`create` and `clone_local` operations, and the repository-created lifecycle
event it builds.  External effects (the environment, the octocrab client
builder, the HTTP POST, the git subprocess) are passed in as explicit
function parameters; the operations additionally return the list of HTTP
requests issued and lifecycle events emitted so that "no network call was
made" and "no event was emitted" are statable.
-/

set_option autoImplicit false

/-- Embedding of `SkootError` (`Box<dyn Error + Send + Sync>`): an opaque-to-us
error value carrying a message. -/
structure SkootError where
  msg : String
deriving DecidableEq, Repr

/-- Modelled from the spec: `GithubUser` — tagged union `User(name)` or
`Organization(name)` (skootrs-model, not under src/). -/
inductive GithubUser where
  | User (name : String)
  | Organization (name : String)
deriving DecidableEq, Repr

/-- Modelled from the spec: `GithubUser::get_name` (skootrs-model, not under
src/) — the owner name carried inside either variant, used for the event
identifiers and the owner field. -/
def GithubUser.get_name : GithubUser → String
  | GithubUser.User name => name
  | GithubUser.Organization name => name

/-- Modelled from the spec: `GithubRepoParams` (skootrs-model, not under
src/) — name, description and owning account for the repository to create. -/
structure GithubRepoParams where
  name : String
  description : String
  organization : GithubUser
deriving DecidableEq, Repr

/-- Modelled from the spec: `GithubRepoParams::full_url` (skootrs-model, not
under src/) — the canonical HTTPS URL derived from the owner name and the
repository name. -/
def GithubRepoParams.full_url (p : GithubRepoParams) : String :=
  "https://github.com/" ++ p.organization.get_name ++ "/" ++ p.name

/-- Modelled from the spec: `RepoParams` — provider-tagged union of creation
parameters (skootrs-model, not under src/). -/
inductive RepoParams where
  | Github (g : GithubRepoParams)
deriving DecidableEq, Repr

/-- Modelled from the spec: `InitializedGithubRepo` (skootrs-model, not under
src/) — the GitHub "repo now exists" result holding name and organization. -/
structure InitializedGithubRepo where
  name : String
  organization : GithubUser
deriving DecidableEq, Repr

/-- Modelled from the spec: `InitializedGithubRepo::full_url` (skootrs-model,
not under src/) — the canonical clone URL derived from the repo's owner and
name. -/
def InitializedGithubRepo.full_url (g : InitializedGithubRepo) : String :=
  "https://github.com/" ++ g.organization.get_name ++ "/" ++ g.name

/-- Modelled from the spec: `InitializedRepo` — provider-tagged union of
creation results (skootrs-model, not under src/). -/
inductive InitializedRepo where
  | Github (g : InitializedGithubRepo)
deriving DecidableEq, Repr

/-- Modelled from the spec: `InitializedSource` (skootrs-model, not under
src/) — the local filesystem path of the cloned working copy. -/
structure InitializedSource where
  path : String
deriving DecidableEq, Repr

/-- Embedding of `NewGithubRepoParams` (repo.rs lines 156-163): the JSON body
of the repository-creation request. -/
structure NewGithubRepoParams where
  name : String
  description : String
  «private» : Bool
  has_issues : Bool
  has_projects : Bool
  has_wiki : Bool
deriving DecidableEq, Repr

/-- Embedding of `RepositoryCreatedEventContextType` — single fixed
discriminator used by repo.rs. -/
inductive RepositoryCreatedEventContextType where
  | DevCdeventsRepositoryCreated011
deriving DecidableEq, Repr

/-- Embedding of `RepositoryCreatedEventSubjectType` — single fixed
discriminator used by repo.rs. -/
inductive RepositoryCreatedEventSubjectType where
  | Repository
deriving DecidableEq, Repr

/-- Modelled from the spec: the context sub-record of the lifecycle event
(skootrs-model cd_events, not under src/).  The validated newtype wrappers
(`...ContextId`, `...ContextVersion`) are represented by the validated
strings they carry; the timestamp is an abstract clock value. -/
structure RepositoryCreatedEventContext where
  id : String
  source : String
  timestamp : Nat
  type_ : RepositoryCreatedEventContextType
  version : String
deriving DecidableEq, Repr

/-- Modelled from the spec: the subject content sub-record of the lifecycle
event (skootrs-model cd_events, not under src/). -/
structure RepositoryCreatedEventSubjectContent where
  name : String
  owner : Option String
  url : String
  view_url : Option String
deriving DecidableEq, Repr

/-- Modelled from the spec: the subject sub-record of the lifecycle event
(skootrs-model cd_events, not under src/). -/
structure RepositoryCreatedEventSubject where
  content : RepositoryCreatedEventSubjectContent
  id : String
  source : Option String
  type_ : RepositoryCreatedEventSubjectType
deriving DecidableEq, Repr

/-- Modelled from the spec: `RepositoryCreatedEvent` (skootrs-model
cd_events, not under src/) — context plus subject, optional custom data. -/
structure RepositoryCreatedEvent where
  context : RepositoryCreatedEventContext
  custom_data : Option String
  custom_data_content_type : Option String
  subject : RepositoryCreatedEventSubject
deriving DecidableEq, Repr

/-- Modelled from the spec: the `from_str` validating constructors of the
cd_events newtype wrappers (skootrs-model, not under src/): each string field
with a declared format is checked against that format at construction; on
success the string is kept, on failure an error is returned (fail fast).
The format check itself is a parameter (`ok`). -/
def validateField (ok : String → Bool) (s : String) : Except SkootError String :=
  if ok s then Except.ok s else Except.error { msg := "invalid format: " ++ s }

/-- The format checks of the five validated string fields built by
`GithubRepoHandler::create`: context id, context version, subject content
name, subject content url, subject id.  Kept abstract (parameters of the
embedding) since the concrete formats live in skootrs-model. -/
structure FieldFormats where
  ctxIdOk : String → Bool
  versionOk : String → Bool
  nameOk : String → Bool
  urlOk : String → Bool
  subjIdOk : String → Bool

/-- Embedding of the endpoint selection in `GithubRepoHandler::create`
(repo.rs lines 96-103): `User` posts to the fixed personal endpoint,
`Organization(name)` posts to the organization endpoint for `name`. -/
def GithubRepoHandler.endpointFor : GithubUser → String
  | GithubUser.User _ => "/user/repos"
  | GithubUser.Organization name => "/orgs/" ++ name ++ "/repos"

/-- Embedding of the request-body construction in `GithubRepoHandler::create`
(repo.rs lines 87-94). -/
def GithubRepoHandler.newRepo (github_params : GithubRepoParams) : NewGithubRepoParams :=
  { name := github_params.name
    description := github_params.description
    «private» := false
    has_issues := true
    has_projects := true
    has_wiki := true }

/-- Embedding of the lifecycle-event construction in
`GithubRepoHandler::create` (repo.rs lines 106-127): each `from_str(...)?`
is a validating constructor whose failure aborts with that error, in source
evaluation order (context id, version, subject name, url, subject id).
`now` stands for `Utc::now()`. -/
def GithubRepoHandler.buildRce (v : FieldFormats) (now : Nat) (github_params : GithubRepoParams) :
    Except SkootError RepositoryCreatedEvent :=
  match validateField v.ctxIdOk
      (github_params.organization.get_name ++ "/" ++ github_params.name) with
  | Except.error e => Except.error e
  | Except.ok ctxId =>
    match validateField v.versionOk "0.3.0" with
    | Except.error e => Except.error e
    | Except.ok version =>
      match validateField v.nameOk github_params.name with
      | Except.error e => Except.error e
      | Except.ok name =>
        match validateField v.urlOk github_params.full_url with
        | Except.error e => Except.error e
        | Except.ok url =>
          match validateField v.subjIdOk
              (github_params.organization.get_name ++ "/" ++ github_params.name) with
          | Except.error e => Except.error e
          | Except.ok subjId =>
            Except.ok
              { context :=
                  { id := ctxId
                    source := "skootrs.github.creator"
                    timestamp := now
                    type_ := RepositoryCreatedEventContextType.DevCdeventsRepositoryCreated011
                    version := version }
                custom_data := none
                custom_data_content_type := none
                subject :=
                  { content :=
                      { name := name
                        owner := some github_params.organization.get_name
                        url := url
                        view_url := some github_params.full_url }
                    id := subjId
                    source := some "skootrs.github.creator"
                    type_ := RepositoryCreatedEventSubjectType.Repository } }

/-- Observable outcome of `GithubRepoHandler::create`: the returned result,
the HTTP POST requests issued (endpoint and body), and the lifecycle events
emitted to the log stream. -/
structure CreateOutcome where
  result : Except SkootError InitializedGithubRepo
  postedTo : List (String × NewGithubRepoParams)
  emittedEvents : List RepositoryCreatedEvent
deriving Repr

/-- Embedding of `GithubRepoHandler::create` (repo.rs lines 86-136).
`post` is the octocrab POST collaborator (the response body is bound to
`_response` and ignored by the source, so it is modelled as `Unit`); a
`post` error is the `?` on line 97/101, a `buildRce` error is a `?` inside
the event literal.  In the source the `User` arm posts through the global
`octocrab::instance()` and the `Organization` arm through `self.client`,
which `initialize` makes the same client; both are the single `post`
parameter here. -/
def GithubRepoHandler.create
    (post : String → NewGithubRepoParams → Except SkootError Unit)
    (v : FieldFormats) (now : Nat)
    (github_params : GithubRepoParams) : CreateOutcome :=
  let new_repo := GithubRepoHandler.newRepo github_params
  let endpoint := GithubRepoHandler.endpointFor github_params.organization
  match post endpoint new_repo with
  | Except.error e =>
      { result := Except.error e
        postedTo := [(endpoint, new_repo)]
        emittedEvents := [] }
  | Except.ok _response =>
      match GithubRepoHandler.buildRce v now github_params with
      | Except.error e =>
          { result := Except.error e
            postedTo := [(endpoint, new_repo)]
            emittedEvents := [] }
      | Except.ok rce =>
          { result := Except.ok
              { name := github_params.name
                organization := github_params.organization }
            postedTo := [(endpoint, new_repo)]
            emittedEvents := [rce] }

/-- How a call to `LocalRepoService::initialize` can end: a Rust panic (from
`.expect(...)`), a returned error, or a returned `InitializedRepo`. -/
inductive InitResult where
  | panicked (msg : String)
  | error (e : SkootError)
  | ok (repo : InitializedRepo)
deriving DecidableEq, Repr

/-- Whether an `InitResult` is a returned error value (a panic is not). -/
def InitResult.isError : InitResult → Bool
  | InitResult.error _ => true
  | _ => false

/-- Observable outcome of `LocalRepoService::initialize`: how it ended, the
HTTP requests issued and the lifecycle events emitted. -/
structure InitOutcome where
  result : InitResult
  postedTo : List (String × NewGithubRepoParams)
  emittedEvents : List RepositoryCreatedEvent
deriving Repr

/-- Embedding of `LocalRepoService::initialize` (repo.rs lines 52-68); named
`initRepo` here.  `env` is `std::env::var`; a missing `GITHUB_TOKEN` hits
`.expect("GITHUB_TOKEN env var must be populated")`, which panics before the
octocrab client is built and before any request is issued.  `build` is the
fallible `octocrab::Octocrab::builder()...build()?` step, and `post`, `v`,
`now` are the collaborators handed to `GithubRepoHandler::create`. -/
def LocalRepoService.initRepo
    (env : String → Option String)
    (build : String → Except SkootError Unit)
    (post : String → NewGithubRepoParams → Except SkootError Unit)
    (v : FieldFormats) (now : Nat)
    (params : RepoParams) : InitOutcome :=
  match env "GITHUB_TOKEN" with
  | none =>
      { result := InitResult.panicked "GITHUB_TOKEN env var must be populated"
        postedTo := []
        emittedEvents := [] }
  | some token =>
      match build token with
      | Except.error e =>
          { result := InitResult.error e
            postedTo := []
            emittedEvents := [] }
      | Except.ok _ =>
          match params with
          | RepoParams.Github g =>
              let out := GithubRepoHandler.create post v now g
              { result :=
                  match out.result with
                  | Except.error e => InitResult.error e
                  | Except.ok r => InitResult.ok (InitializedRepo.Github r)
                postedTo := out.postedTo
                emittedEvents := out.emittedEvents }

/-- The observable result of running the git subprocess to completion:
`std::process::Output` — exit status plus captured stdout/stderr. -/
structure ProcessOutput where
  status : Int
  stdout : String
  stderr : String
deriving DecidableEq, Repr

/-- The subprocess invocation built by `clone_local`: program, arguments and
working directory (`Command::new("git").arg("clone").arg(url).current_dir(path)`). -/
structure GitInvocation where
  program : String
  args : List String
  current_dir : String
deriving DecidableEq, Repr

/-- Embedding of `GithubRepoHandler::clone_local` (repo.rs lines 138-150).
`run` is `.output()`: it returns `Except.error` only when spawning or I/O
fails, and `Except.ok` with the captured `ProcessOutput` otherwise — a
non-zero exit status is still `Except.ok`.  The source binds that output to
`_output` and ignores it, then returns the computed path. -/
def GithubRepoHandler.clone_local
    (run : GitInvocation → Except SkootError ProcessOutput)
    (initialized_github_repo : InitializedGithubRepo) (path : String) :
    Except SkootError InitializedSource :=
  let clone_url := initialized_github_repo.full_url
  match run { program := "git", args := ["clone", clone_url], current_dir := path } with
  | Except.error e => Except.error e
  | Except.ok _output =>
      Except.ok { path := path ++ "/" ++ initialized_github_repo.name }

/-- Embedding of `LocalRepoService::clone_local` (repo.rs lines 70-76):
dispatch on the provider tag of the initialized repo. -/
def LocalRepoService.clone_local
    (run : GitInvocation → Except SkootError ProcessOutput)
    (initialized_repo : InitializedRepo) (path : String) :
    Except SkootError InitializedSource :=
  match initialized_repo with
  | InitializedRepo.Github g => GithubRepoHandler.clone_local run g path

/-- Whether an `Except` value is a success. -/
def exceptIsOk {ε α : Type} : Except ε α → Bool
  | Except.ok _ => true
  | Except.error _ => false

/-- The lifecycle event `GithubRepoHandler::create` builds when every field
validation passes: all validated fields carry the strings computed from the
creation parameters. -/
def theRce (now : Nat) (p : GithubRepoParams) : RepositoryCreatedEvent :=
  { context :=
      { id := p.organization.get_name ++ "/" ++ p.name
        source := "skootrs.github.creator"
        timestamp := now
        type_ := RepositoryCreatedEventContextType.DevCdeventsRepositoryCreated011
        version := "0.3.0" }
    custom_data := none
    custom_data_content_type := none
    subject :=
      { content :=
          { name := p.name
            owner := some p.organization.get_name
            url := p.full_url
            view_url := some p.full_url }
        id := p.organization.get_name ++ "/" ++ p.name
        source := some "skootrs.github.creator"
        type_ := RepositoryCreatedEventSubjectType.Repository } }

theorem buildRce_ok_eq {v : FieldFormats} {now : Nat} {p : GithubRepoParams}
    {rce : RepositoryCreatedEvent}
    (h : GithubRepoHandler.buildRce v now p = Except.ok rce) :
    rce = theRce now p := by
  unfold GithubRepoHandler.buildRce validateField at h
  split_ifs at h
  simp_all [theRce]

theorem buildRce_fails (v : FieldFormats) (now : Nat) (p : GithubRepoParams)
    (h : v.ctxIdOk (p.organization.get_name ++ "/" ++ p.name) = false
       ∨ v.versionOk "0.3.0" = false
       ∨ v.nameOk p.name = false
       ∨ v.urlOk p.full_url = false
       ∨ v.subjIdOk (p.organization.get_name ++ "/" ++ p.name) = false) :
    exceptIsOk (GithubRepoHandler.buildRce v now p) = false := by
  unfold GithubRepoHandler.buildRce validateField
  split_ifs <;> simp_all [exceptIsOk]

theorem create_postedTo (post : String → NewGithubRepoParams → Except SkootError Unit)
    (v : FieldFormats) (now : Nat) (p : GithubRepoParams) :
    (GithubRepoHandler.create post v now p).postedTo
      = [(GithubRepoHandler.endpointFor p.organization, GithubRepoHandler.newRepo p)] := by
  rcases hp : post (GithubRepoHandler.endpointFor p.organization) (GithubRepoHandler.newRepo p)
    with e | u
  · simp [GithubRepoHandler.create, hp]
  · rcases hb : GithubRepoHandler.buildRce v now p with e | rce
    · simp [GithubRepoHandler.create, hp, hb]
    · simp [GithubRepoHandler.create, hp, hb]

theorem create_result_ok {post : String → NewGithubRepoParams → Except SkootError Unit}
    {v : FieldFormats} {now : Nat} {p : GithubRepoParams} {r : InitializedGithubRepo}
    (h : (GithubRepoHandler.create post v now p).result = Except.ok r) :
    r = { name := p.name, organization := p.organization } := by
  rcases hp : post (GithubRepoHandler.endpointFor p.organization) (GithubRepoHandler.newRepo p)
    with e | u
  · simp [GithubRepoHandler.create, hp] at h
  · rcases hb : GithubRepoHandler.buildRce v now p with e | rce
    · simp [GithubRepoHandler.create, hp, hb] at h
    · simp [GithubRepoHandler.create, hp, hb] at h
      exact h.symm

/-- A POST collaborator that always succeeds. -/
def postOk : String → NewGithubRepoParams → Except SkootError Unit :=
  fun _ _ => Except.ok ()

/-- A POST collaborator that always fails, as on an HTTP 422 response. -/
def postErr : String → NewGithubRepoParams → Except SkootError Unit :=
  fun _ _ => Except.error { msg := "HTTP 422: name already exists" }

/-- A client-builder collaborator that always succeeds. -/
def buildOk : String → Except SkootError Unit := fun _ => Except.ok ()

/-- An environment with no variables set at all. -/
def envNoToken : String → Option String := fun _ => none

/-- An environment in which only GITHUB_TOKEN is set. -/
def envWithToken : String → Option String :=
  fun k => if k = "GITHUB_TOKEN" then some "token" else none

/-- Field formats that accept every string. -/
def allFormatsOk : FieldFormats :=
  { ctxIdOk := fun _ => true
    versionOk := fun _ => true
    nameOk := fun _ => true
    urlOk := fun _ => true
    subjIdOk := fun _ => true }

/-- Field formats whose URL format rejects every string. -/
def badUrlFormats : FieldFormats :=
  { allFormatsOk with urlOk := fun _ => false }

/-- The creation parameters of spec Scenario A. -/
def sampleParams : GithubRepoParams :=
  { name := "skootrs"
    description := "d"
    organization := GithubUser.Organization "kusaridev" }

/-- The initialized repo of spec Scenario B. -/
def sampleRepo : InitializedGithubRepo :=
  { name := "skootrs", organization := GithubUser.Organization "kusaridev" }

/-- A git runner whose subprocess spawns and exits with status 0. -/
def runOk : GitInvocation → Except SkootError ProcessOutput :=
  fun _ => Except.ok { status := 0, stdout := "", stderr := "" }

/-- A git runner whose subprocess spawns but exits with status 128, as git
does when the remote repository does not exist. -/
def runExit128 : GitInvocation → Except SkootError ProcessOutput :=
  fun _ => Except.ok { status := 128, stdout := "", stderr := "fatal: repository not found" }

/-- C1: the claim says a non-zero git exit status makes `clone_local` return
an error.  The code binds the subprocess output to `_output` and never
inspects the exit status: `Command::output()` only fails on spawn/I-O
failure, so a run that exits with status 128 still yields `Ok`.  This
theorem evaluates the embedded `clone_local` at such a failing run and shows
it returns success, contradicting both the claim and the trait's own
documentation ("Returns an error if the source code repository can't be
cloned"). -/
theorem clone_local_ignores_nonzero_exit :
    GithubRepoHandler.clone_local runExit128 sampleRepo "/tmp/x"
      = Except.ok { path := "/tmp/x/skootrs" } := rfl

/-- C3: for all `Organization(o)` owners the creation request is posted to
`/orgs/.../repos` parameterized by `o`, and for all `User(_)` owners to the
fixed `/user/repos` endpoint, whatever the `name` string is — the branch
depends only on the owner tag. -/
theorem create_endpoint_depends_only_on_owner_tag
    (post : String → NewGithubRepoParams → Except SkootError Unit)
    (v : FieldFormats) (now : Nat) (name description : String) :
    (∀ o, (GithubRepoHandler.create post v now
        { name := name, description := description,
          organization := GithubUser.Organization o }).postedTo.map Prod.fst
      = ["/orgs/" ++ o ++ "/repos"])
    ∧ (∀ u, (GithubRepoHandler.create post v now
        { name := name, description := description,
          organization := GithubUser.User u }).postedTo.map Prod.fst
      = ["/user/repos"]) := by
  constructor
  · intro o
    rw [create_postedTo]
    rfl
  · intro u
    rw [create_postedTo]
    rfl

/-- C4: whenever `clone_local(repo, path)` succeeds, the returned source's
path is exactly `path ++ "/" ++ repo.name`, computed from the inputs alone
(the embedding has no filesystem to read back from). -/
theorem clone_local_path_computed
    (run : GitInvocation → Except SkootError ProcessOutput)
    (repo : InitializedGithubRepo) (path : String) (src : InitializedSource)
    (h : GithubRepoHandler.clone_local run repo path = Except.ok src) :
    src.path = path ++ "/" ++ repo.name := by
  rcases hr : run { program := "git", args := ["clone", repo.full_url], current_dir := path }
    with e | out
  · simp [GithubRepoHandler.clone_local, hr] at h
  · simp [GithubRepoHandler.clone_local, hr] at h
    rw [← h]

/-- Witness for C4 at Scenario B's concrete inputs. -/
theorem clone_local_path_computed_witness :
    ({ path := "/tmp/x/skootrs" } : InitializedSource).path = "/tmp/x" ++ "/" ++ sampleRepo.name :=
  clone_local_path_computed runOk sampleRepo "/tmp/x" { path := "/tmp/x/skootrs" } rfl

/-- C7: the creation request body is always exactly
`{name, description, private := false, has_issues := true,
has_projects := true, has_wiki := true}` — visibility public and all three
capability flags enabled, for every input. -/
theorem create_request_body_fixed_flags
    (post : String → NewGithubRepoParams → Except SkootError Unit)
    (v : FieldFormats) (now : Nat) (p : GithubRepoParams) :
    (GithubRepoHandler.create post v now p).postedTo.map Prod.snd
      = [{ name := p.name, description := p.description, «private» := false,
           has_issues := true, has_projects := true, has_wiki := true }] := by
  rw [create_postedTo]
  rfl

theorem create_emitted_mem {post : String → NewGithubRepoParams → Except SkootError Unit}
    {v : FieldFormats} {now : Nat} {p : GithubRepoParams} {rce : RepositoryCreatedEvent}
    (h : rce ∈ (GithubRepoHandler.create post v now p).emittedEvents) :
    GithubRepoHandler.buildRce v now p = Except.ok rce := by
  rcases hp : post (GithubRepoHandler.endpointFor p.organization) (GithubRepoHandler.newRepo p)
    with e | u
  · simp [GithubRepoHandler.create, hp] at h
  · rcases hb : GithubRepoHandler.buildRce v now p with e | rce2
    · simp [GithubRepoHandler.create, hp, hb] at h
    · simp [GithubRepoHandler.create, hp, hb] at h
      rw [h]

/-- C2 counterexample: with no GITHUB_TOKEN in the environment, the embedded
`initialize` ends in the panic of `.expect("GITHUB_TOKEN env var must be
populated")`, not in a returned error value — the claim says it returns an
error to the caller. -/
theorem initRepo_missing_token_panics_counterexample :
    (LocalRepoService.initRepo envNoToken buildOk postOk allFormatsOk 0
        (RepoParams.Github sampleParams)).result
      = InitResult.panicked "GITHUB_TOKEN env var must be populated"
    ∧ (LocalRepoService.initRepo envNoToken buildOk postOk allFormatsOk 0
        (RepoParams.Github sampleParams)).result.isError = false :=
  ⟨rfl, rfl⟩

/-- C2 (amended): when GITHUB_TOKEN is absent from the environment,
`initialize` fails fatally — by panicking with "GITHUB_TOKEN env var must be
populated", not by returning an error value — before any network call is
attempted and before any lifecycle event is emitted. -/
theorem initRepo_missing_token_fails_before_network
    (env : String → Option String)
    (build : String → Except SkootError Unit)
    (post : String → NewGithubRepoParams → Except SkootError Unit)
    (v : FieldFormats) (now : Nat) (params : RepoParams)
    (henv : env "GITHUB_TOKEN" = none) :
    (LocalRepoService.initRepo env build post v now params).result
      = InitResult.panicked "GITHUB_TOKEN env var must be populated"
    ∧ (LocalRepoService.initRepo env build post v now params).postedTo = []
    ∧ (LocalRepoService.initRepo env build post v now params).emittedEvents = [] := by
  simp [LocalRepoService.initRepo, henv]

/-- Witness for the amended C2 at a concrete empty environment. -/
theorem initRepo_missing_token_fails_before_network_witness :
    (LocalRepoService.initRepo envNoToken buildOk postOk allFormatsOk 0
        (RepoParams.Github sampleParams)).result
      = InitResult.panicked "GITHUB_TOKEN env var must be populated"
    ∧ (LocalRepoService.initRepo envNoToken buildOk postOk allFormatsOk 0
        (RepoParams.Github sampleParams)).postedTo = []
    ∧ (LocalRepoService.initRepo envNoToken buildOk postOk allFormatsOk 0
        (RepoParams.Github sampleParams)).emittedEvents = [] :=
  initRepo_missing_token_fails_before_network envNoToken buildOk postOk allFormatsOk 0
    (RepoParams.Github sampleParams) rfl

/-- C5: when the creation request has already succeeded but one of the
validated lifecycle-event string fields (context identifier, version,
name, URL, subject identifier) fails its format check, `create` returns an
error — the call is not reported as a success even though the remote
repository already exists. -/
theorem create_event_validation_failure_aborts
    (post : String → NewGithubRepoParams → Except SkootError Unit)
    (v : FieldFormats) (now : Nat) (p : GithubRepoParams)
    (hpost : post (GithubRepoHandler.endpointFor p.organization) (GithubRepoHandler.newRepo p)
      = Except.ok ())
    (hfail : v.ctxIdOk (p.organization.get_name ++ "/" ++ p.name) = false
       ∨ v.versionOk "0.3.0" = false
       ∨ v.nameOk p.name = false
       ∨ v.urlOk p.full_url = false
       ∨ v.subjIdOk (p.organization.get_name ++ "/" ++ p.name) = false) :
    exceptIsOk (GithubRepoHandler.create post v now p).result = false := by
  have hb := buildRce_fails v now p hfail
  rcases hb2 : GithubRepoHandler.buildRce v now p with e | rce
  · simp [GithubRepoHandler.create, hpost, hb2, exceptIsOk]
  · rw [hb2] at hb
    simp [exceptIsOk] at hb

/-- Witness for C5: a URL format that rejects everything makes `create`
fail even though the POST succeeded. -/
theorem create_event_validation_failure_aborts_witness :
    exceptIsOk (GithubRepoHandler.create postOk badUrlFormats 0 sampleParams).result = false :=
  create_event_validation_failure_aborts postOk badUrlFormats 0 sampleParams rfl
    (Or.inr (Or.inr (Or.inr (Or.inl rfl))))

/-- C6: when the provider API call fails (HTTP error, transport failure,
deserialization failure — all an `Except.error` from the POST collaborator),
`initialize` returns that error, issues exactly one request (no retry), and
builds and emits no lifecycle event. -/
theorem initRepo_api_failure_no_event
    (env : String → Option String)
    (build : String → Except SkootError Unit)
    (post : String → NewGithubRepoParams → Except SkootError Unit)
    (v : FieldFormats) (now : Nat) (g : GithubRepoParams) (t : String) (e : SkootError)
    (henv : env "GITHUB_TOKEN" = some t)
    (hbuild : build t = Except.ok ())
    (hpost : post (GithubRepoHandler.endpointFor g.organization) (GithubRepoHandler.newRepo g)
      = Except.error e) :
    (LocalRepoService.initRepo env build post v now (RepoParams.Github g)).result
      = InitResult.error e
    ∧ (LocalRepoService.initRepo env build post v now (RepoParams.Github g)).postedTo
      = [(GithubRepoHandler.endpointFor g.organization, GithubRepoHandler.newRepo g)]
    ∧ (LocalRepoService.initRepo env build post v now (RepoParams.Github g)).emittedEvents
      = [] := by
  simp [LocalRepoService.initRepo, henv, hbuild, GithubRepoHandler.create, hpost]

/-- Witness for C6: a simulated HTTP 422 on Scenario A's parameters. -/
theorem initRepo_api_failure_no_event_witness :
    (LocalRepoService.initRepo envWithToken buildOk postErr allFormatsOk 0
        (RepoParams.Github sampleParams)).result
      = InitResult.error { msg := "HTTP 422: name already exists" }
    ∧ (LocalRepoService.initRepo envWithToken buildOk postErr allFormatsOk 0
        (RepoParams.Github sampleParams)).postedTo
      = [(GithubRepoHandler.endpointFor sampleParams.organization,
          GithubRepoHandler.newRepo sampleParams)]
    ∧ (LocalRepoService.initRepo envWithToken buildOk postErr allFormatsOk 0
        (RepoParams.Github sampleParams)).emittedEvents
      = [] :=
  initRepo_api_failure_no_event envWithToken buildOk postErr allFormatsOk 0 sampleParams
    "token" { msg := "HTTP 422: name already exists" } (by decide) rfl rfl

/-- C8: every lifecycle event emitted by a `create` call has both its context
identifier and its subject identifier equal to the string
`owner-name ++ "/" ++ repo-name`, where the owner name is the one carried
inside `params.organization` (for both tags) and the repo name is
`params.name`. -/
theorem rce_identifiers_owner_slash_name
    (post : String → NewGithubRepoParams → Except SkootError Unit)
    (v : FieldFormats) (now : Nat) (p : GithubRepoParams) (rce : RepositoryCreatedEvent)
    (h : rce ∈ (GithubRepoHandler.create post v now p).emittedEvents) :
    rce.context.id = p.organization.get_name ++ "/" ++ p.name
    ∧ rce.subject.id = p.organization.get_name ++ "/" ++ p.name := by
  rw [buildRce_ok_eq (create_emitted_mem h)]
  exact ⟨rfl, rfl⟩

/-- Witness for C8 at Scenario A's parameters with all formats accepting. -/
theorem rce_identifiers_owner_slash_name_witness :
    (theRce 0 sampleParams).context.id
      = sampleParams.organization.get_name ++ "/" ++ sampleParams.name
    ∧ (theRce 0 sampleParams).subject.id
      = sampleParams.organization.get_name ++ "/" ++ sampleParams.name :=
  rce_identifiers_owner_slash_name postOk allFormatsOk 0 sampleParams (theRce 0 sampleParams)
    (List.mem_singleton.mpr rfl)

/-- C9: whenever `initialize(RepoParams::Github(g))` returns a repo, it is
`InitializedRepo::Github` with the name and organization carried through
from the input unchanged. -/
theorem initRepo_success_carries_name_and_org
    (env : String → Option String)
    (build : String → Except SkootError Unit)
    (post : String → NewGithubRepoParams → Except SkootError Unit)
    (v : FieldFormats) (now : Nat) (g : GithubRepoParams) (r : InitializedRepo)
    (h : (LocalRepoService.initRepo env build post v now (RepoParams.Github g)).result
      = InitResult.ok r) :
    r = InitializedRepo.Github { name := g.name, organization := g.organization } := by
  rcases he : env "GITHUB_TOKEN" with _ | t
  · simp [LocalRepoService.initRepo, he] at h
  · rcases hb : build t with e | u
    · simp [LocalRepoService.initRepo, he, hb] at h
    · rcases hres : (GithubRepoHandler.create post v now g).result with e | rg
      · simp [LocalRepoService.initRepo, he, hb, hres] at h
      · simp [LocalRepoService.initRepo, he, hb, hres] at h
        rw [← h, create_result_ok hres]

/-- Witness for C9 at Scenario A's parameters on a simulated success. -/
theorem initRepo_success_carries_name_and_org_witness :
    InitializedRepo.Github
        { name := sampleParams.name, organization := sampleParams.organization }
      = InitializedRepo.Github
        { name := sampleParams.name, organization := sampleParams.organization } :=
  initRepo_success_carries_name_and_org envWithToken buildOk postOk allFormatsOk 0 sampleParams
    (InitializedRepo.Github
      { name := sampleParams.name, organization := sampleParams.organization })
    (by decide)

/-- C10: every lifecycle event emitted by a `create` call has its subject
owner present (`some` of the owner name, never `none`) and its subject
view URL present and equal to the validated canonical URL — both computed
from the same `params.full_url()` value. -/
theorem rce_subject_owner_and_view_url
    (post : String → NewGithubRepoParams → Except SkootError Unit)
    (v : FieldFormats) (now : Nat) (p : GithubRepoParams) (rce : RepositoryCreatedEvent)
    (h : rce ∈ (GithubRepoHandler.create post v now p).emittedEvents) :
    rce.subject.content.owner = some p.organization.get_name
    ∧ rce.subject.content.view_url = some p.full_url
    ∧ rce.subject.content.url = p.full_url := by
  rw [buildRce_ok_eq (create_emitted_mem h)]
  exact ⟨rfl, rfl, rfl⟩

/-- Witness for C10 at Scenario A's parameters with all formats accepting. -/
theorem rce_subject_owner_and_view_url_witness :
    (theRce 0 sampleParams).subject.content.owner
      = some sampleParams.organization.get_name
    ∧ (theRce 0 sampleParams).subject.content.view_url = some sampleParams.full_url
    ∧ (theRce 0 sampleParams).subject.content.url = sampleParams.full_url :=
  rce_subject_owner_and_view_url postOk allFormatsOk 0 sampleParams (theRce 0 sampleParams)
    (List.mem_singleton.mpr rfl)
